import Mathlib

/-!
Verification development for the ai-news-columnist backend.

This file gives a shallow embedding, in Lean 4, of the core pipeline of the
repository: the content-evaluation parser (`services/content_evaluation_service.py`),
the title/summary extractor (`services/content_generation_service.py`), the news
post-processing and source conversion (`services/news_search_service.py`), the
search/draft/evaluate-revise pipeline (`services/gemini_service.py`), and the
request validation, preview cache and endpoint error translation (`schemas.py`,
`main.py`).

Python strings are modelled as Lean `String` (sequences of Unicode code points);
the Python string primitives used by the code (`strip`, `rstrip`, slicing,
`startswith`, `in`, `lower`, `split`) are re-implemented below over `String.data`
so that every definition is executable and kernel-reducible.  Timestamps are
modelled as `Int` seconds.  The external collaborators (the LLM, the news HTTP
provider, `datetime.strptime`, `html.unescape`) are passed in as explicit
function parameters, exactly where the Python code calls out to them.
-/

/-! ## Python string primitives, re-implemented over character lists -/

/-- Python `s.strip()`: drop whitespace from both ends. -/
def pyStrip (s : String) : String :=
  String.mk (((s.data.dropWhile Char.isWhitespace).reverse.dropWhile Char.isWhitespace).reverse)

/-- Python `s.rstrip()`: drop whitespace from the right end. -/
def pyRstrip (s : String) : String :=
  String.mk ((s.data.reverse.dropWhile Char.isWhitespace).reverse)

/-- Python `s[:n]`: the first `n` code points. -/
def pyTake (s : String) (n : Nat) : String := String.mk (s.data.take n)

/-- Python `s[n:]`: drop the first `n` code points. -/
def pyDrop (s : String) (n : Nat) : String := String.mk (s.data.drop n)

/-- Python `s.startswith(pre)`. -/
def pyStartsWith (s pre : String) : Bool := pre.data.isPrefixOf s.data

/-- Helper for substring search: does `pat` occur in the list at any position? -/
def infixOfAux (pat : List Char) : List Char → Bool
  | [] => pat.isEmpty
  | c :: rest => pat.isPrefixOf (c :: rest) || infixOfAux pat rest

/-- Python `pat in s` on strings: substring containment. -/
def containsSub (s pat : String) : Bool := infixOfAux pat.data s.data

/-- Python `s.lower()` (pointwise; the Korean text used by the code is unaffected). -/
def pyLower (s : String) : String := String.mk (s.data.map Char.toLower)

/-- Lexicographic comparison of code-point lists, as Python compares strings. -/
def lexLe : List Char → List Char → Bool
  | [], _ => true
  | _ :: _, [] => false
  | a :: as, b :: bs => if a = b then lexLe as bs else decide (a < b)

/-- Python `a <= b` on strings. -/
def strLe (a b : String) : Bool := lexLe a.data b.data

/-- Helper for `pySplitNl`; `acc` holds the current chunk reversed. -/
def pySplitNlAux (acc : List Char) : List Char → List String
  | [] => [String.mk acc.reverse]
  | c :: rest =>
    if c = '\n' then String.mk acc.reverse :: pySplitNlAux [] rest
    else pySplitNlAux (c :: acc) rest

/-- Python `s.split('\n')`: split at each newline, keeping empty chunks. -/
def pySplitNl (s : String) : List String := pySplitNlAux [] s.data

/-- Helper for `pySplitWs`; `acc` holds the current word reversed. -/
def pySplitWsAux (acc : List Char) : List Char → List String
  | [] => if acc.isEmpty then [] else [String.mk acc.reverse]
  | c :: rest =>
    if c.isWhitespace then
      if acc.isEmpty then pySplitWsAux [] rest
      else String.mk acc.reverse :: pySplitWsAux [] rest
    else pySplitWsAux (c :: acc) rest

/-- Python `s.split()`: split on whitespace runs, dropping empty words. -/
def pySplitWs (s : String) : List String := pySplitWsAux [] s.data

/-- State machine for Python `re.sub(r'<[^>]+>', '', s)`.  The first argument is
`none` outside a candidate tag and `some pending` after an unmatched `<`, where
`pending` holds (reversed) the characters seen since that `<`. -/
def stripTagsAux : Option (List Char) → List Char → List Char
  | none, [] => []
  | some pending, [] => '<' :: pending.reverse
  | none, c :: rest =>
    if c = '<' then stripTagsAux (some []) rest
    else c :: stripTagsAux none rest
  | some pending, c :: rest =>
    if c = '>' then
      if pending.isEmpty then '<' :: '>' :: stripTagsAux none rest
      else stripTagsAux none rest
    else stripTagsAux (some (c :: pending)) rest

/-- Python `re.sub(r'<[^>]+>', '', s)`: remove HTML-tag-like runs. -/
def stripTags (s : String) : String := String.mk (stripTagsAux none s.data)

/-! ## Data model (`schemas.py`) -/

/-- Source schema: a citation entry (`schemas.py`, class `Source`). -/
structure Source where
  title : String
  uri : String
deriving Repr, DecidableEq

/-- The five rubric scores held by an `EvaluationResult` (the five fixed keys
filled in by `_parse_evaluation_result`). -/
structure Scores where
  format : Rat
  balance : Rat
  readability : Rat
  completeness : Rat
  objectivity : Rat
deriving Repr, DecidableEq

/-- Evaluation result schema (`schemas.py`, class `EvaluationResult`); the
Python field is `pass_` with alias `pass`. -/
structure EvaluationResult where
  scores : Scores
  pass_ : Bool
  feedback : String
  revisedContent : String
deriving Repr, DecidableEq

/-- Generated content schema (`schemas.py`, class `GeneratedContent`). -/
structure GeneratedContent where
  title : String
  summary : String
  content : String
  sources : Option (List Source)
deriving Repr, DecidableEq

/-- CustomHTTPException (`core/exceptions.py`): status code, detail message and
optional machine-readable error code. -/
structure HttpErr where
  status_code : Nat
  detail : String
  error_code : Option String
deriving Repr, DecidableEq

/-- ContentGenerationException (`core/exceptions.py`): status 500. -/
def content_generation_exception (detail : String) : HttpErr :=
  { status_code := 500, detail := detail, error_code := some "CONTENT_GENERATION_ERROR" }

/-- NewsSearchException (`core/exceptions.py`): status 503. -/
def news_search_exception (detail : String) : HttpErr :=
  { status_code := 503, detail := detail, error_code := some "NEWS_SEARCH_ERROR" }

/-! ## Content evaluation service (`services/content_evaluation_service.py`) -/

/-- The `scores` object of the model JSON reply; each key may be absent
(Python `scores_data.get(key, 0)`). -/
structure ScoresData where
  format : Option Rat
  balance : Option Rat
  readability : Option Rat
  completeness : Option Rat
  objectivity : Option Rat
deriving Repr, DecidableEq

/-- The parsed JSON reply of the evaluation model; each key may be absent
(Python `evaluation_data.get(...)`). -/
structure EvalData where
  scores : Option ScoresData
  passFlag : Option Bool
  feedback : Option String
  revisedContent : Option String
deriving Repr, DecidableEq

/-- Python `evaluation_data.get("scores", {})` with all keys missing. -/
def emptyScoresData : ScoresData :=
  { format := none, balance := none, readability := none,
    completeness := none, objectivity := none }

/-- ContentEvaluationService._parse_evaluation_result: build an
`EvaluationResult` from the model JSON.  Missing individual scores default to
0; the `pass` flag is taken from the reply (`evaluation_data.get("pass",
False)`); `feedback` defaults to the fixed Korean string; `revisedContent`
defaults to the empty string. -/
def parse_evaluation_result (d : EvalData) : EvaluationResult :=
  let sd := d.scores.getD emptyScoresData
  { scores :=
      { format := sd.format.getD 0
        balance := sd.balance.getD 0
        readability := sd.readability.getD 0
        completeness := sd.completeness.getD 0
        objectivity := sd.objectivity.getD 0 }
    pass_ := d.passFlag.getD false
    feedback := d.feedback.getD "평가 완료"
    revisedContent := d.revisedContent.getD "" }

/-- ContentEvaluationService.is_content_acceptable: all five scores at or
above the threshold (default 85). -/
def is_content_acceptable (s : Scores) (threshold : Rat) : Bool :=
  decide (threshold ≤ s.format) && decide (threshold ≤ s.balance) &&
  decide (threshold ≤ s.readability) && decide (threshold ≤ s.completeness) &&
  decide (threshold ≤ s.objectivity)

/-! ## Content generation service (`services/content_generation_service.py`) -/

/-- First loop of extract_title_and_summary: the first stripped line that
starts with a major heading marker and is not one of the three reserved
emoji-prefixed section headings; yields the heading text. -/
def find_title : List String → Option String
  | [] => none
  | line :: rest =>
    let l := pyStrip line
    if pyStartsWith l "## " && !pyStartsWith l "## 💬" &&
       !pyStartsWith l "## 🧨" && !pyStartsWith l "## 📌" then
      some (pyStrip (pyDrop l 3))
    else find_title rest

/-- Second loop of extract_title_and_summary: walk the lines; once a heading
line containing the title has been seen (`found`), the first stripped line
that is non-empty and not a heading is the summary candidate. -/
def find_summary (title : String) : List String → Bool → Option String
  | [], _ => none
  | line :: rest, found =>
    let l := pyStrip line
    if pyStartsWith l "## " && containsSub l title then
      find_summary title rest true
    else if found && !(l = "") && !pyStartsWith l "#" && !pyStartsWith l "## " then
      some l
    else
      find_summary title rest found

/-- The 300-character guard applied to the summary candidate: over-length
lines become the first 297 characters, right-stripped, plus an ellipsis. -/
def truncate_summary (l : String) : String :=
  if 300 < l.length then pyRstrip (pyTake l 297) ++ "..." else l

/-- Default title used when no heading is found. -/
def default_title : String := "정치 컬럼"

/-- Default summary used when no qualifying paragraph is found. -/
def default_summary : String := "정치 이슈에 대한 균형잡힌 분석입니다."

/-- Title part of ContentGenerationService.extract_title_and_summary. -/
def extract_title (lines : List String) : String :=
  (find_title lines).getD default_title

/-- Summary part of ContentGenerationService.extract_title_and_summary. -/
def extract_summary (lines : List String) (title : String) : String :=
  match find_summary title lines false with
  | none => default_summary
  | some l => truncate_summary l

/-- ContentGenerationService.extract_title_and_summary: deterministic text
parse of the generated markdown into (title, summary). -/
def extract_title_and_summary (content : String) : String × String :=
  let lines := pySplitNl content
  let title := extract_title lines
  (title, extract_summary lines title)

/-! ## News search service (`services/news_search_service.py`) -/

/-- A raw record of the news provider; every key may be absent
(the Python code reads them with `item.get`). -/
structure RawNewsItem where
  title : Option String
  description : Option String
  originallink : Option String
  link : Option String
  pubDate : Option String
deriving Repr, DecidableEq

/-- A processed news item (the dict built by _process_news_items). -/
structure NewsItem where
  title : String
  description : String
  link : String
  pubDate : String
  originalLink : String
  naverLink : String
deriving Repr, DecidableEq

/-- The fixed political vocabulary of _is_political_news. -/
def political_keywords : List String :=
  ["대통령", "정부", "청와대", "국무총리", "장관", "정부", "행정부",
   "국회", "의원", "국정감사", "국정조사", "법안", "입법", "의정",
   "민주당", "국민의힘", "정의당", "여당", "야당", "정치인", "정당",
   "선거", "투표", "공약", "정책", "개헌", "탄핵", "사퇴", "임명",
   "정치", "외교", "국정", "정무", "내각", "권력", "정치권"]

/-- NaverNewsSearchService._is_political_news: the lowercased concatenation of
title and description contains at least one vocabulary term. -/
def is_political_news (title description : String) : Bool :=
  let text := pyLower (title ++ " " ++ description)
  political_keywords.any (fun kw => containsSub text kw)

/-- The search-mode filter of _process_news_items: in "title" mode with a
non-empty topic, every whitespace-split token of the lowercased topic must
occur in the lowercased title. -/
def title_mode_ok (search_mode topic title : String) : Bool :=
  if search_mode = "title" && !(topic = "") then
    (pySplitWs (pyLower topic)).all (fun kw => containsSub (pyLower title) kw)
  else true

/-- The per-item body of the _process_news_items loop.  `unescape` stands for
`html.unescape`, `parseDate` for `_parse_naver_date` (which wraps
`datetime.strptime` and returns `None` on failure), and `isoFmt` for
`datetime.isoformat`; they are external collaborators passed as parameters.
`cutoff` is `now - timedelta(days=days_back)` as seconds.  Returns `none`
when the item is dropped. -/
def process_one (unescape : String → String) (parseDate : String → Option Int)
    (isoFmt : Int → String) (cutoff : Int) (search_mode topic : String)
    (item : RawNewsItem) : Option NewsItem :=
  let title := unescape (stripTags (item.title.getD ""))
  let description := unescape (stripTags (item.description.getD ""))
  let pub_date_str := item.pubDate.getD ""
  let pub_date := parseDate pub_date_str
  if (match pub_date with | some d => decide (d < cutoff) | none => false) then none
  else if !is_political_news title description then none
  else if !title_mode_ok search_mode topic title then none
  else some
    { title := title
      description := description
      link := item.originallink.getD (item.link.getD "")
      pubDate := match pub_date with | some d => isoFmt d | none => pub_date_str
      originalLink := item.originallink.getD ""
      naverLink := item.link.getD "" }

/-- NaverNewsSearchService._process_news_items: clean, date-filter and
keyword-filter the raw items, then sort descending by the pubDate string
(Python `list.sort(key=..., reverse=True)` is stable). -/
def process_news_items (unescape : String → String) (parseDate : String → Option Int)
    (isoFmt : Int → String) (now : Int) (days_back : Int) (search_mode topic : String)
    (items : List RawNewsItem) : List NewsItem :=
  let cutoff := now - days_back * 86400
  let processed := items.filterMap (process_one unescape parseDate isoFmt cutoff search_mode topic)
  processed.mergeSort (fun a b => strLe b.pubDate a.pubDate)

/-- NaverNewsSearchService.convert_to_sources: one Source per news item, in
order, from the item title and link. -/
def convert_to_sources : List NewsItem → List Source
  | [] => []
  | item :: rest => { title := item.title, uri := item.link } :: convert_to_sources rest

/-! ## Pipeline (`services/gemini_service.py`) -/

/-- Result of the bounded evaluate/revise loop: the final draft and the number
of evaluator invocations performed. -/
structure RevisionOutcome where
  content : String
  evalCalls : Nat
deriving Repr, DecidableEq

/-- The evaluate/revise loop of GeminiService.generate_column (and of
generate_column_with_news): up to the given number of attempts, evaluate the
current draft; on pass break immediately, otherwise continue from the
evaluation's revisedContent.  `evaluator` stands for
ContentEvaluationService.evaluate_and_revise (an LLM call). -/
def revise_loop (evaluator : String → EvaluationResult) : Nat → String → RevisionOutcome
  | 0, content => { content := content, evalCalls := 0 }
  | Nat.succ n, content =>
    let ev := evaluator content
    if ev.pass_ then { content := content, evalCalls := 1 }
    else
      let r := revise_loop evaluator n ev.revisedContent
      { content := r.content, evalCalls := r.evalCalls + 1 }

/-- The draft obtained after n straight (non-passing) revisions: each step
replaces the draft by the evaluation's revisedContent. -/
def reviseIter (evaluator : String → EvaluationResult) : Nat → String → String
  | 0, c => c
  | Nat.succ n, c => reviseIter evaluator n (evaluator c).revisedContent

/-- Preview cache entry (`main.py` news_cache values; the stored wall-clock
timestamp is not modelled as no code reads it). -/
structure CacheEntry where
  news_data : List NewsItem
  sources : List Source
deriving Repr, DecidableEq

/-- The module-level mutable state of `main.py`: the news_cache dict, plus a
count of news-search API invocations (how many times
NaverNewsSearchService.search_recent_news was called). -/
structure AppState where
  news_cache : List (String × CacheEntry)
  searchCalls : Nat
deriving Repr, DecidableEq

/-- Dict lookup on the association-list model of news_cache. -/
def cacheGet : List (String × CacheEntry) → String → Option CacheEntry
  | [], _ => none
  | (k, v) :: rest, key => if k = key then some v else cacheGet rest key

/-- Dict `del` on the association-list model of news_cache. -/
def cacheErase : List (String × CacheEntry) → String → List (String × CacheEntry)
  | [], _ => []
  | (k, v) :: rest, key =>
    if k = key then cacheErase rest key else (k, v) :: cacheErase rest key

/-- Dict assignment on the association-list model of news_cache. -/
def cacheSet (c : List (String × CacheEntry)) (key : String) (v : CacheEntry) :
    List (String × CacheEntry) :=
  (key, v) :: cacheErase c key

/-- GeminiService._search_latest_news.  `searchOutcome` is the outcome of the
news-search call (an external HTTP collaborator): `some items` for a reply,
`none` for a raised NewsSearchException, which the method swallows, returning
empty news and sources.  Each invocation performs exactly one search call. -/
def search_latest_news (searchOutcome : Option (List NewsItem)) (st : AppState) :
    (List NewsItem × List Source) × AppState :=
  match searchOutcome with
  | none => (([], []), { st with searchCalls := st.searchCalls + 1 })
  | some items => ((items, convert_to_sources items), { st with searchCalls := st.searchCalls + 1 })

/-- Result of a successful generation: the article plus the number of
evaluator invocations made by the revise loop. -/
structure GenResult where
  article : GeneratedContent
  evalCalls : Nat
deriving Repr, DecidableEq

/-- Detail text of the zero-news ContentGenerationException raised by
generate_column. -/
def zero_news_detail (topic : String) : String :=
  topic ++ " 관련 뉴스를 찾을 수 없어 팩트 기반 컬럼을 생성할 수 없습니다. 네이버 뉴스 API 설정을 확인해주세요."

/-- GeminiService.generate_column: search → draft → bounded evaluate/revise →
extract → assemble.  `gen` stands for
ContentGenerationService.generate_column_from_news (an LLM call).  With zero
news items the pipeline raises ContentGenerationException. -/
def generate_column (gen : String → List NewsItem → String)
    (evaluator : String → EvaluationResult) (searchOutcome : Option (List NewsItem))
    (topic : String) (max_revision_attempts : Nat) (st : AppState) :
    Except HttpErr GenResult × AppState :=
  let r := search_latest_news searchOutcome st
  let news := r.1.1
  let sources := r.1.2
  let st1 := r.2
  if news.isEmpty then
    (Except.error (content_generation_exception (zero_news_detail topic)), st1)
  else
    let draft := gen topic news
    let loop := revise_loop evaluator max_revision_attempts draft
    let ts := extract_title_and_summary loop.content
    (Except.ok
      { article :=
          { title := ts.1, summary := ts.2, content := loop.content, sources := some sources }
        evalCalls := loop.evalCalls }, st1)

/-- Detail text of the zero-news ContentGenerationException raised by
generate_column_with_news. -/
def with_news_zero_detail (topic : String) : String :=
  topic ++ " 관련 뉴스 데이터가 없어 컬럼을 생성할 수 없습니다."

/-- GeminiService.generate_column_with_news: draft → bounded evaluate/revise →
extract → assemble, from already-searched news and already-converted sources
(no search call). -/
def generate_column_with_news (gen : String → List NewsItem → String)
    (evaluator : String → EvaluationResult) (topic : String)
    (news : List NewsItem) (sources : List Source) (max_revision_attempts : Nat) :
    Except HttpErr GenResult :=
  if news.isEmpty then
    Except.error (content_generation_exception (with_news_zero_detail topic))
  else
    let draft := gen topic news
    let loop := revise_loop evaluator max_revision_attempts draft
    let ts := extract_title_and_summary loop.content
    Except.ok
      { article :=
          { title := ts.1, summary := ts.2, content := loop.content, sources := some sources }
        evalCalls := loop.evalCalls }

/-- Detail text of the zero-news ContentGenerationException raised by
generate_draft_ts_style (the inner raise is itself caught by the method's
blanket except-clause and re-raised as ContentGenerationException, so the
surfaced error kind is the same; the re-wrapped detail text is kept simple). -/
def ts_zero_detail (topic : String) : String :=
  topic ++ " 관련 뉴스를 찾을 수 없어 팩트 기반 컬럼을 생성할 수 없습니다."

/-- GeminiService.generate_draft_ts_style: the legacy single-shot path.
Searches, then drafts once with no evaluation; with zero news items it raises
ContentGenerationException. -/
def generate_draft_ts_style (gen : String → List NewsItem → String)
    (searchOutcome : Option (List NewsItem)) (topic : String) (st : AppState) :
    Except HttpErr (String × List Source) × AppState :=
  let r := search_latest_news searchOutcome st
  let news := r.1.1
  let sources := r.1.2
  let st1 := r.2
  if news.isEmpty then
    (Except.error (content_generation_exception (ts_zero_detail topic)), st1)
  else
    (Except.ok (gen topic news, sources), st1)

/-! ## Application layer (`main.py`) -/

/-- The composite preview-cache key built by both preview_news and
generate_column_confirmed: topic, daysBack and searchMode joined by
underscores. -/
def cache_key (topic : String) (days_back : Int) (search_mode : String) : String :=
  topic ++ "_" ++ toString days_back ++ "_" ++ search_mode

/-- The four-bucket search-quality heuristic of preview_news. -/
def search_quality (news_count : Nat) : String :=
  if 10 ≤ news_count then "excellent"
  else if 5 ≤ news_count then "good"
  else if 2 ≤ news_count then "fair"
  else "poor"

/-- The data of a NewsPreviewResponse that the claims refer to. -/
structure PreviewInfo where
  topic : String
  newsItems : List NewsItem
  totalAvailable : Nat
  searchQuality : String
deriving Repr, DecidableEq

/-- The preview_news endpoint body: search once, store the news and sources in
news_cache under the composite key, and report up to 5 items with a quality
tier. -/
def preview_news (searchOutcome : Option (List NewsItem)) (topic : String)
    (days_back : Int) (search_mode : String) (st : AppState) : PreviewInfo × AppState :=
  let r := search_latest_news searchOutcome st
  let news := r.1.1
  let sources := r.1.2
  let st1 := r.2
  let key := cache_key topic days_back search_mode
  let st2 := { st1 with news_cache := cacheSet st1.news_cache key { news_data := news, sources := sources } }
  ({ topic := topic
     newsItems := news.take 5
     totalAvailable := news.length
     searchQuality := search_quality news.length }, st2)

/-- The user-cancellation CustomHTTPException raised by
generate_column_confirmed when proceed is false. -/
def user_cancelled_error : HttpErr :=
  { status_code := 400, detail := "사용자가 컬럼 생성을 취소했습니다.", error_code := none }

/-- The generate_column_confirmed endpoint body: reject immediately when
proceed is false; otherwise generate from the cached news if the composite key
is present (deleting the entry after a successful generation — the Python
`del` sits after the awaited call, so a raised exception leaves the entry in
place), and fall back to the full search pipeline when it is absent. -/
def generate_column_confirmed (gen : String → List NewsItem → String)
    (evaluator : String → EvaluationResult) (searchOutcome : Option (List NewsItem))
    (topic : String) (days_back : Int) (max_revision_attempts : Nat)
    (search_mode : String) (proceed : Bool) (st : AppState) :
    Except HttpErr GenResult × AppState :=
  if !proceed then
    (Except.error user_cancelled_error, st)
  else
    let key := cache_key topic days_back search_mode
    match cacheGet st.news_cache key with
    | some entry =>
      match generate_column_with_news gen evaluator topic entry.news_data entry.sources
          max_revision_attempts with
      | Except.ok r => (Except.ok r, { st with news_cache := cacheErase st.news_cache key })
      | Except.error e => (Except.error e, st)
    | none =>
      generate_column gen evaluator searchOutcome topic max_revision_attempts st

/-! ## Request validation (`schemas.py`) -/

/-- The forbidden topic keywords of ColumnRequest.validate_topic. -/
def forbidden_keywords : List String := ["욕설", "혐오", "비방", "개인정보"]

/-- The keyword scan of validate_topic: the first forbidden keyword contained
in the lowercased topic, if any. -/
def find_forbidden (topic_lower : String) : Option String :=
  forbidden_keywords.find? (fun kw => containsSub topic_lower kw)

/-- ColumnRequest.validate_topic: reject whitespace-only topics and topics
containing a forbidden keyword; return the stripped topic. -/
def validate_topic (v : String) : Except String String :=
  if pyStrip v = "" then Except.error "주제는 공백일 수 없습니다."
  else
    match find_forbidden (pyLower v) with
    | some kw => Except.error ("부적절한 내용이 포함되어 있습니다: " ++ kw)
    | none => Except.ok (pyStrip v)

/-- ColumnRequest.validate_search_mode: only "title" and "all" are accepted. -/
def validate_search_mode (v : String) : Except String String :=
  if v = "title" || v = "all" then Except.ok v
  else Except.error "searchMode는 title 또는 all만 허용됩니다."

/-- A ColumnRequest that passed validation. -/
structure ValidatedColumnRequest where
  topic : String
  maxRevisionAttempts : Int
  daysBack : Int
  searchMode : String
deriving Repr, DecidableEq

/-- The full validation performed by the ColumnRequest schema: topic length in
[2, 200], maxRevisionAttempts in [1, 5], daysBack in [1, 30], then the two
custom validators. -/
def column_request_validate (topic : String) (maxRevisionAttempts daysBack : Int)
    (searchMode : String) : Except String ValidatedColumnRequest :=
  if topic.length < 2 then Except.error "topic: 길이가 2자 미만입니다."
  else if 200 < topic.length then Except.error "topic: 길이가 200자를 초과합니다."
  else if maxRevisionAttempts < 1 || 5 < maxRevisionAttempts then
    Except.error "maxRevisionAttempts: 1 이상 5 이하이어야 합니다."
  else if daysBack < 1 || 30 < daysBack then
    Except.error "daysBack: 1 이상 30 이하이어야 합니다."
  else
    match validate_topic topic with
    | Except.error e => Except.error e
    | Except.ok t =>
      match validate_search_mode searchMode with
      | Except.error e => Except.error e
      | Except.ok sm =>
        Except.ok { topic := t, maxRevisionAttempts := maxRevisionAttempts,
                    daysBack := daysBack, searchMode := sm }

/-- A ColumnGenerationConfirmRequest (no validators, no field constraints). -/
structure ConfirmRequest where
  topic : String
  daysBack : Int
  maxRevisionAttempts : Int
  searchMode : String
  proceed : Bool
deriving Repr, DecidableEq

/-- The validation performed by the ColumnGenerationConfirmRequest schema:
beyond type checking, none — every typed input is accepted. -/
def confirm_request_validate (topic : String) (daysBack maxRevisionAttempts : Int)
    (searchMode : String) (proceed : Bool) : Except String ConfirmRequest :=
  Except.ok { topic := topic, daysBack := daysBack,
              maxRevisionAttempts := maxRevisionAttempts,
              searchMode := searchMode, proceed := proceed }

/-! ## Endpoint error translation (`main.py`) -/

/-- A Python exception escaping the pipeline, as the endpoints see it:
a ValueError, a CustomHTTPException (or subclass), or any other exception. -/
inductive PyExc where
  | valueError (msg : String)
  | httpExc (err : HttpErr)
  | otherExc (msg : String)
deriving Repr, DecidableEq

/-- The fixed generic 500 error produced by the generate-column endpoint for
every non-ValueError failure. -/
def generic_column_error : HttpErr :=
  { status_code := 500
    detail := "컬럼 생성 중 오류가 발생했습니다. 잠시 후 다시 시도해주세요."
    error_code := none }

/-- The except-chain of the /api/generate-column endpoint: ValueError becomes
a 400 with the input-validation message; every other exception — including
CustomHTTPException subclasses such as NewsSearchException — becomes the fixed
generic 500. -/
def column_endpoint_handle_error (e : PyExc) : HttpErr :=
  match e with
  | PyExc.valueError m =>
    { status_code := 400, detail := "입력 데이터가 올바르지 않습니다: " ++ m, error_code := none }
  | PyExc.httpExc _ => generic_column_error
  | PyExc.otherExc _ => generic_column_error

/-- The except-chain of the /api/generate-column-confirmed endpoint:
CustomHTTPException is re-raised unchanged; everything else becomes a 500
whose detail embeds the original message. -/
def confirmed_endpoint_handle_error (e : PyExc) : HttpErr :=
  match e with
  | PyExc.httpExc err => err
  | PyExc.valueError m =>
    { status_code := 500, detail := "컬럼 생성 중 오류: " ++ m, error_code := none }
  | PyExc.otherExc m =>
    { status_code := 500, detail := "컬럼 생성 중 오류: " ++ m, error_code := none }

/-! ## Theorems -/

/-- Concrete evaluation reply: all five scores exactly 85, model-reported
pass flag false. -/
def c1_eval_data : EvalData :=
  { scores := some
      { format := some 85, balance := some 85, readability := some 85,
        completeness := some 85, objectivity := some 85 }
    passFlag := some false
    feedback := some "모든 항목 85점"
    revisedContent := some "수정본" }

/-- C1 (counterexample): for the evaluation reply with all five scores = 85
and reported pass = false, the parsed result satisfies the ≥ 85 threshold on
every score yet its effective `passed` value is false — refuting the claim
that passed is recomputed as the AND of all five scores ≥ 85 independently of
the model-reported flag. -/
theorem C1_counterexample :
    is_content_acceptable (parse_evaluation_result c1_eval_data).scores 85 = true ∧
    (parse_evaluation_result c1_eval_data).pass_ = false := by
  exact ⟨by decide, rfl⟩

/-- C1 (amended): _parse_evaluation_result takes `passed` verbatim from the
model-reported pass flag (defaulting to false when absent) and it is
independent of the five scores; in particular an all-85 reply with reported
pass = false yields effective passed = false. -/
theorem C1_amended_pass_flag_from_model :
    ∀ (d : EvalData) (sd : Option ScoresData),
      (parse_evaluation_result d).pass_ = d.passFlag.getD false ∧
      (parse_evaluation_result { d with scores := sd }).pass_ =
        (parse_evaluation_result d).pass_ :=
  fun _ _ => ⟨rfl, rfl⟩

/-- C2 (counterexample): the legacy single-shot path generate_draft_ts_style,
exercised with a news search yielding zero items, fails with
ContentGenerationException — it does not return an article with empty
sources. -/
theorem C2_counterexample :
    (generate_draft_ts_style (fun _ _ => "초안") (some []) "주제"
      { news_cache := [], searchCalls := 0 }).1 =
    Except.error (content_generation_exception (ts_zero_detail "주제")) := rfl

/-- C2 (amended): for every topic whose news search yields zero items (an
empty reply or a swallowed search failure), both generate_column and the
legacy generate_draft_ts_style fail with ContentGenerationException; neither
returns a placeholder article or an article with empty sources. -/
theorem C2_amended_zero_news_both_paths_fail :
    ∀ (gen : String → List NewsItem → String) (evaluator : String → EvaluationResult)
      (so : Option (List NewsItem)) (topic : String) (n : Nat) (st st2 : AppState),
      so = none ∨ so = some [] →
      (∃ e, (generate_column gen evaluator so topic n st).1 = Except.error e ∧
        e.error_code = some "CONTENT_GENERATION_ERROR") ∧
      (∃ e, (generate_draft_ts_style gen so topic st2).1 = Except.error e ∧
        e.error_code = some "CONTENT_GENERATION_ERROR") := by
  intro gen evaluator so topic n st st2 h
  rcases h with h | h <;> subst h <;>
    exact ⟨⟨_, rfl, rfl⟩, ⟨_, rfl, rfl⟩⟩

/-- C2 (witness): the amended theorem at a concrete empty search reply. -/
theorem C2_witness :
    ∃ e, (generate_column (fun _ _ => "초안")
        (fun _ => { scores := { format := 0, balance := 0, readability := 0,
                                completeness := 0, objectivity := 0 },
                    pass_ := false, feedback := "f", revisedContent := "r" })
        (some []) "주제" 3 { news_cache := [], searchCalls := 0 }).1 = Except.error e ∧
      e.error_code = some "CONTENT_GENERATION_ERROR" :=
  (C2_amended_zero_news_both_paths_fail _ _ (some []) "주제" 3
    { news_cache := [], searchCalls := 0 } { news_cache := [], searchCalls := 0 }
    (Or.inr rfl)).1

/-- C8: a confirm request with proceed = false is rejected with the 400-class
user-cancellation error as the very first step: the returned state is the
input state unchanged (so no news search, no cache read or write, and no
content generation took place). -/
theorem C8_cancel_rejected_without_effects :
    ∀ (gen : String → List NewsItem → String) (evaluator : String → EvaluationResult)
      (so : Option (List NewsItem)) (topic : String) (days_back : Int) (n : Nat)
      (search_mode : String) (st : AppState),
      generate_column_confirmed gen evaluator so topic days_back n search_mode false st =
        (Except.error user_cancelled_error, st) ∧
      user_cancelled_error.status_code = 400 :=
  fun _ _ _ _ _ _ _ _ => ⟨rfl, rfl⟩

/-- C10: the single-shot generate-column endpoint maps every non-ValueError
failure — including CustomHTTPException subclasses such as NewsSearchException
(503) and ContentGenerationException — to the fixed generic 500 error, erasing
the original status and detail; the confirmed endpoint re-raises
CustomHTTPException values unchanged, preserving status code and detail. -/
theorem C10_error_translation :
    ∀ (err : HttpErr) (m d : String),
      column_endpoint_handle_error (PyExc.httpExc err) = generic_column_error ∧
      column_endpoint_handle_error (PyExc.otherExc m) = generic_column_error ∧
      column_endpoint_handle_error (PyExc.httpExc (news_search_exception d)) =
        generic_column_error ∧
      column_endpoint_handle_error (PyExc.httpExc (content_generation_exception d)) =
        generic_column_error ∧
      generic_column_error.status_code = 500 ∧
      confirmed_endpoint_handle_error (PyExc.httpExc err) = err :=
  fun _ _ _ => ⟨rfl, rfl, rfl, rfl, rfl, rfl⟩

/-- The revise loop performs at most `n` evaluator invocations. -/
lemma revise_loop_calls_le (e : String → EvaluationResult) :
    ∀ (n : Nat) (c : String), (revise_loop e n c).evalCalls ≤ n := by
  intro n
  induction n with
  | zero => intro c; exact Nat.le_refl 0
  | succ n ih =>
    intro c
    by_cases h : (e c).pass_
    · simp [revise_loop, h]
    · simp only [revise_loop, h, if_false, Bool.false_eq_true]
      exact Nat.succ_le_succ (ih _)

/-- Against an evaluator that never passes, the loop runs all `n` attempts and
returns the n-fold revision of the draft. -/
lemma revise_loop_never_pass (e : String → EvaluationResult)
    (h : ∀ s, (e s).pass_ = false) :
    ∀ (n : Nat) (c : String),
      revise_loop e n c = { content := reviseIter e n c, evalCalls := n } := by
  intro n
  induction n with
  | zero => intro c; rfl
  | succ n ih =>
    intro c
    simp only [revise_loop, reviseIter, h, if_false, Bool.false_eq_true, ih]

/-- The (m+1)-fold revision is the revisedContent of the evaluation of the
m-fold revision — i.e. of the last evaluation performed. -/
lemma reviseIter_succ_eq_last (e : String → EvaluationResult) :
    ∀ (m : Nat) (c : String),
      reviseIter e (m + 1) c = (e (reviseIter e m c)).revisedContent := by
  intro m
  induction m with
  | zero => intro c; rfl
  | succ m ih =>
    intro c
    show reviseIter e (m + 1) (e c).revisedContent = _
    rw [ih]
    rfl

/-- C3: in generate_column_with_news (and equally in generate_column) the
evaluator is invoked at most maxRevisionAttempts times; a passing first
evaluation exits the loop immediately with one call and the draft unchanged;
an evaluator that never passes is called exactly maxRevisionAttempts times and
the final content is the revisedContent of the last evaluation. -/
theorem C3_revision_loop_bounds :
    ∀ (gen : String → List NewsItem → String) (evaluator : String → EvaluationResult)
      (topic : String) (news : List NewsItem) (sources : List Source) (n : Nat)
      (so : Option (List NewsItem)) (st : AppState),
      news ≠ [] →
      ∃ r, generate_column_with_news gen evaluator topic news sources n = Except.ok r ∧
        r.evalCalls ≤ n ∧
        ((evaluator (gen topic news)).pass_ = true → 1 ≤ n →
          r.evalCalls = 1 ∧ r.article.content = gen topic news) ∧
        ((∀ s, (evaluator s).pass_ = false) →
          r.evalCalls = n ∧
          r.article.content = reviseIter evaluator n (gen topic news) ∧
          ∀ m, n = m + 1 →
            r.article.content =
              (evaluator (reviseIter evaluator m (gen topic news))).revisedContent) ∧
        (so = some news →
          ∃ r2, (generate_column gen evaluator so topic n st).1 = Except.ok r2 ∧
            r2.evalCalls = r.evalCalls ∧ r2.article.content = r.article.content) := by
  intro gen evaluator topic news sources n so st hne
  cases news with
  | nil => exact absurd rfl hne
  | cons a t =>
    refine ⟨_, rfl, ?_, ?_, ?_, ?_⟩
    · exact revise_loop_calls_le evaluator n _
    · intro hp hn
      cases n with
      | zero => exact absurd hn (by decide)
      | succ k =>
        constructor
        · simp [revise_loop, hp]
        · simp [revise_loop, hp]
    · intro hnever
      rw [revise_loop_never_pass evaluator hnever]
      refine ⟨rfl, rfl, ?_⟩
      intro m hm
      subst hm
      exact reviseIter_succ_eq_last evaluator m _
    · intro hso
      subst hso
      exact ⟨_, rfl, rfl, rfl⟩

/-- A concrete processed news item used by witnesses. -/
def item0 : NewsItem :=
  { title := "정치 뉴스", description := "정책 관련 보도", link := "https://example.com/a",
    pubDate := "2024-09-03T10:30:00+09:00", originalLink := "https://example.com/a",
    naverLink := "https://n.example.com/a" }

/-- An evaluator that never passes and appends a marker on each revision. -/
def never_pass_evaluator : String → EvaluationResult :=
  fun s =>
    { scores := { format := 70, balance := 70, readability := 70,
                  completeness := 70, objectivity := 70 },
      pass_ := false, feedback := "개선 필요", revisedContent := s ++ "+" }

/-- C3 (witness): with one news item, two allowed attempts and an evaluator
that never passes, the pipeline succeeds, makes exactly 2 evaluator calls and
returns the twice-revised draft. -/
theorem C3_witness :
    ∃ r, generate_column_with_news (fun _ _ => "d") never_pass_evaluator "주제"
        [item0] [{ title := "정치 뉴스", uri := "https://example.com/a" }] 2 =
        Except.ok r ∧
      r.evalCalls = 2 ∧ r.article.content = "d++" := by
  obtain ⟨r, h1, _, _, h4, _⟩ :=
    C3_revision_loop_bounds (fun _ _ => "d") never_pass_evaluator "주제" [item0]
      [{ title := "정치 뉴스", uri := "https://example.com/a" }] 2 none
      { news_cache := [], searchCalls := 0 } (by simp)
  obtain ⟨hc, hcontent, _⟩ := h4 (fun s => rfl)
  exact ⟨r, h1, hc, by rw [hcontent]; rfl⟩

/-- convert_to_sources is the order-preserving map taking each item to a
Source built from its title and link. -/
lemma convert_to_sources_eq_map :
    ∀ items : List NewsItem,
      convert_to_sources items =
        items.map (fun it => { title := it.title, uri := it.link }) := by
  intro items
  induction items with
  | nil => rfl
  | cons a t ih => simp [convert_to_sources, ih]

/-- C7: the sources of the final article are exactly the Source list produced
from the search step — one Source per news item, in order, from the item title
and link — and they do not depend on the evaluator or on the number of
revision attempts. -/
theorem C7_sources_invariant :
    ∀ (gen : String → List NewsItem → String) (e1 e2 : String → EvaluationResult)
      (n1 n2 : Nat) (items : List NewsItem) (topic : String) (st1 st2 : AppState),
      items ≠ [] →
      ∃ r1 r2,
        (generate_column gen e1 (some items) topic n1 st1).1 = Except.ok r1 ∧
        (generate_column gen e2 (some items) topic n2 st2).1 = Except.ok r2 ∧
        r1.article.sources = some (convert_to_sources items) ∧
        r2.article.sources = r1.article.sources ∧
        convert_to_sources items =
          items.map (fun it => { title := it.title, uri := it.link }) := by
  intro gen e1 e2 n1 n2 items topic st1 st2 hne
  cases items with
  | nil => exact absurd rfl hne
  | cons a t =>
    exact ⟨_, _, rfl, rfl, rfl, rfl, convert_to_sources_eq_map _⟩

/-- An evaluator that always passes and leaves the draft unchanged. -/
def always_pass_evaluator : String → EvaluationResult :=
  fun s =>
    { scores := { format := 90, balance := 90, readability := 90,
                  completeness := 90, objectivity := 90 },
      pass_ := true, feedback := "통과", revisedContent := s }

/-- C7 (witness): with one concrete news item, two different evaluators and
different attempt budgets, both runs succeed and report the same sources,
namely the converted search result. -/
theorem C7_witness :
    ∃ r1 r2,
      (generate_column (fun _ _ => "d") never_pass_evaluator (some [item0]) "주제" 1
        { news_cache := [], searchCalls := 0 }).1 = Except.ok r1 ∧
      (generate_column (fun _ _ => "d") always_pass_evaluator (some [item0]) "주제" 3
        { news_cache := [], searchCalls := 0 }).1 = Except.ok r2 ∧
      r1.article.sources = some (convert_to_sources [item0]) ∧
      r2.article.sources = r1.article.sources ∧
      convert_to_sources [item0] =
        [item0].map (fun it => { title := it.title, uri := it.link }) := by
  have h := C7_sources_invariant (fun _ _ => "d") never_pass_evaluator always_pass_evaluator
    1 3 [item0] "주제" { news_cache := [], searchCalls := 0 }
    { news_cache := [], searchCalls := 0 } (by simp)
  exact h

/-- Right-stripping does not lengthen a string. -/
lemma pyRstrip_length_le (s : String) : (pyRstrip s).length ≤ s.length := by
  show ((s.data.reverse.dropWhile Char.isWhitespace).reverse).length ≤ s.data.length
  rw [List.length_reverse]
  calc (s.data.reverse.dropWhile Char.isWhitespace).length
      ≤ s.data.reverse.length := (List.dropWhile_sublist _).length_le
    _ = s.data.length := List.length_reverse _

/-- A 297-character slice has length at most 297. -/
lemma pyTake_length_le (s : String) (n : Nat) : (pyTake s n).length ≤ n := by
  show (s.data.take n).length ≤ n
  exact List.length_take_le n s.data

/-- String concatenation adds lengths. -/
lemma str_length_append (a b : String) : (a ++ b).length = a.length + b.length := by
  show (a ++ b).data.length = a.data.length + b.data.length
  rw [String.data_append, List.length_append]

/-- C4: extract_title_and_summary factors through extract_summary, and for
every line list and title: when the search finds no qualifying paragraph the
fixed placeholder is returned; a qualifying paragraph of at most 300
characters is returned unmodified; a qualifying paragraph longer than 300
characters yields a summary of length at most 300 that ends with an
ellipsis. -/
theorem C4_summary_truncation :
    ∀ content : String,
      extract_title_and_summary content =
        (extract_title (pySplitNl content),
          extract_summary (pySplitNl content) (extract_title (pySplitNl content))) ∧
      ∀ (lines : List String) (title : String),
        (find_summary title lines false = none →
          extract_summary lines title = default_summary) ∧
        (∀ l, find_summary title lines false = some l →
          (l.length ≤ 300 → extract_summary lines title = l) ∧
          (300 < l.length →
            (extract_summary lines title).length ≤ 300 ∧
            ∃ t, extract_summary lines title = t ++ "...")) := by
  intro content
  refine ⟨rfl, ?_⟩
  intro lines title
  constructor
  · intro h
    simp only [extract_summary, h]
  · intro l hl
    constructor
    · intro hle
      simp only [extract_summary, hl, truncate_summary]
      rw [if_neg (by omega)]
    · intro hgt
      simp only [extract_summary, hl, truncate_summary, if_pos hgt]
      constructor
      · rw [str_length_append]
        have h1 := pyRstrip_length_le (pyTake l 297)
        have h2 := pyTake_length_le l 297
        have h3 : ("..." : String).length = 3 := rfl
        omega
      · exact ⟨_, rfl⟩

/-- A markdown column whose summary paragraph is 301 characters long. -/
def c4_content : String := "## 제목\n" ++ String.mk (List.replicate 301 'a')

set_option maxRecDepth 4000 in
/-- C4 (witness): on the concrete column with a 301-character paragraph, the
extracted summary has length at most 300 and ends with an ellipsis. -/
theorem C4_witness :
    (extract_title_and_summary c4_content).2.length ≤ 300 ∧
    ∃ t, (extract_title_and_summary c4_content).2 = t ++ "..." :=
  (((C4_summary_truncation c4_content).2 (pySplitNl c4_content)
    (extract_title (pySplitNl c4_content))).2 (String.mk (List.replicate 301 'a'))
    (by decide)).2 (by decide)

/-- Reading a key just assigned finds the new entry. -/
lemma cacheGet_set_same (c : List (String × CacheEntry)) (k : String) (v : CacheEntry) :
    cacheGet (cacheSet c k v) k = some v := by
  simp [cacheSet, cacheGet]

/-- After deleting a key it is absent. -/
lemma cacheGet_erase_same (c : List (String × CacheEntry)) (k : String) :
    cacheGet (cacheErase c k) k = none := by
  induction c with
  | nil => rfl
  | cons p rest ih =>
    obtain ⟨pk, pv⟩ := p
    by_cases h : pk = k
    · simp [cacheErase, h, ih]
    · simp [cacheErase, cacheGet, h, ih]

/-- C5: a preview followed by a confirm with proceed = true on the same
composite key performs exactly one news search in total — the preview searches
once and the confirm, finding the cache entry, does not search again — and
after a successful confirm the cache entry for the key is gone; a confirm on a
key with no cache entry re-runs the full pipeline, performing a search. -/
theorem C5_preview_confirm_single_search :
    ∀ (gen : String → List NewsItem → String) (evaluator : String → EvaluationResult)
      (items : List NewsItem) (topic : String) (days_back : Int) (search_mode : String)
      (n : Nat) (st : AppState),
      (preview_news (some items) topic days_back search_mode st).2.searchCalls =
        st.searchCalls + 1 ∧
      (generate_column_confirmed gen evaluator (some items) topic days_back n search_mode
          true (preview_news (some items) topic days_back search_mode st).2).2.searchCalls =
        (preview_news (some items) topic days_back search_mode st).2.searchCalls ∧
      (∀ r,
        (generate_column_confirmed gen evaluator (some items) topic days_back n search_mode
            true (preview_news (some items) topic days_back search_mode st).2).1 =
          Except.ok r →
        cacheGet
          (generate_column_confirmed gen evaluator (some items) topic days_back n search_mode
            true (preview_news (some items) topic days_back search_mode st).2).2.news_cache
          (cache_key topic days_back search_mode) = none) ∧
      (∀ st2 : AppState,
        cacheGet st2.news_cache (cache_key topic days_back search_mode) = none →
        (generate_column_confirmed gen evaluator (some items) topic days_back n search_mode
            true st2).2.searchCalls = st2.searchCalls + 1) := by
  intro gen evaluator items topic days_back search_mode n st
  have hget : cacheGet (preview_news (some items) topic days_back search_mode st).2.news_cache
      (cache_key topic days_back search_mode) =
      some { news_data := items, sources := convert_to_sources items } :=
    cacheGet_set_same _ _ _
  have hconf : ∀ st2 : AppState,
      generate_column_confirmed gen evaluator (some items) topic days_back n search_mode
        true st2 =
      (match cacheGet st2.news_cache (cache_key topic days_back search_mode) with
       | some entry =>
         (match generate_column_with_news gen evaluator topic entry.news_data entry.sources n with
          | Except.ok r =>
            (Except.ok r,
              { st2 with
                news_cache := cacheErase st2.news_cache (cache_key topic days_back search_mode) })
          | Except.error e => (Except.error e, st2))
       | none => generate_column gen evaluator (some items) topic n st2) :=
    fun _ => rfl
  refine ⟨rfl, ?_, ?_, ?_⟩
  · rw [hconf, hget]
    cases hgen : generate_column_with_news gen evaluator topic items (convert_to_sources items) n with
    | ok r => simp [hgen]
    | error e => simp [hgen]
  · intro r hr
    rw [hconf, hget] at hr ⊢
    cases hgen : generate_column_with_news gen evaluator topic items (convert_to_sources items) n with
    | ok r2 =>
      simp only [hgen]
      exact cacheGet_erase_same _ _
    | error e => simp [hgen] at hr
  · intro st2 h2
    rw [hconf, h2]
    cases items with
    | nil => rfl
    | cons a t => rfl

/-- C5 (witness): a concrete preview-then-confirm run — one search in total
and the cache entry is absent after the successful confirm. -/
theorem C5_witness :
    (preview_news (some [item0]) "경제" 7 "title"
      { news_cache := [], searchCalls := 0 }).2.searchCalls = 0 + 1 ∧
    cacheGet
      (generate_column_confirmed (fun _ _ => "d") always_pass_evaluator (some [item0])
        "경제" 7 1 "title" true
        (preview_news (some [item0]) "경제" 7 "title"
          { news_cache := [], searchCalls := 0 }).2).2.news_cache
      (cache_key "경제" 7 "title") = none := by
  have h := C5_preview_confirm_single_search (fun _ _ => "d") always_pass_evaluator [item0]
    "경제" 7 "title" 1 { news_cache := [], searchCalls := 0 }
  exact ⟨h.1, h.2.2.1 _ rfl⟩

/-- C6: in news post-processing, an item whose publication date string fails
to parse is kept (when it passes the relevance and search-mode filters) and
carries its raw date string; an item whose date parses strictly earlier than
now minus the daysBack window is dropped; an item whose date parses inside the
window is kept (when it passes the other filters).  Kept items appear in the
output of process_news_items. -/
theorem C6_date_filtering :
    ∀ (unescape : String → String) (parseDate : String → Option Int) (isoFmt : Int → String)
      (now days_back : Int) (search_mode topic : String) (items : List RawNewsItem)
      (item : RawNewsItem),
      (parseDate (item.pubDate.getD "") = none →
        is_political_news (unescape (stripTags (item.title.getD "")))
          (unescape (stripTags (item.description.getD ""))) = true →
        title_mode_ok search_mode topic (unescape (stripTags (item.title.getD ""))) = true →
        ∃ p, process_one unescape parseDate isoFmt (now - days_back * 86400) search_mode topic
              item = some p ∧
          p.pubDate = item.pubDate.getD "" ∧
          (item ∈ items →
            p ∈ process_news_items unescape parseDate isoFmt now days_back search_mode topic
                  items)) ∧
      (∀ dte, parseDate (item.pubDate.getD "") = some dte → dte < now - days_back * 86400 →
        process_one unescape parseDate isoFmt (now - days_back * 86400) search_mode topic item
          = none) ∧
      (∀ dte, parseDate (item.pubDate.getD "") = some dte → now - days_back * 86400 ≤ dte →
        is_political_news (unescape (stripTags (item.title.getD "")))
          (unescape (stripTags (item.description.getD ""))) = true →
        title_mode_ok search_mode topic (unescape (stripTags (item.title.getD ""))) = true →
        ∃ p, process_one unescape parseDate isoFmt (now - days_back * 86400) search_mode topic
              item = some p ∧
          p.pubDate = isoFmt dte ∧
          (item ∈ items →
            p ∈ process_news_items unescape parseDate isoFmt now days_back search_mode topic
                  items)) := by
  intro unescape parseDate isoFmt now days_back search_mode topic items item
  refine ⟨?_, ?_, ?_⟩
  · intro hparse hpol hmode
    have hp : process_one unescape parseDate isoFmt (now - days_back * 86400) search_mode topic
        item = some
        { title := unescape (stripTags (item.title.getD ""))
          description := unescape (stripTags (item.description.getD ""))
          link := item.originallink.getD (item.link.getD "")
          pubDate := item.pubDate.getD ""
          originalLink := item.originallink.getD ""
          naverLink := item.link.getD "" } := by
      simp [process_one, hparse, hpol, hmode]
    refine ⟨_, hp, rfl, ?_⟩
    intro hmem
    simp only [process_news_items]
    exact (List.mergeSort_perm _ _).mem_iff.mpr (List.mem_filterMap.mpr ⟨item, hmem, hp⟩)
  · intro dte hparse hlt
    simp [process_one, hparse, hlt]
  · intro dte hparse hle hpol hmode
    have hp : process_one unescape parseDate isoFmt (now - days_back * 86400) search_mode topic
        item = some
        { title := unescape (stripTags (item.title.getD ""))
          description := unescape (stripTags (item.description.getD ""))
          link := item.originallink.getD (item.link.getD "")
          pubDate := isoFmt dte
          originalLink := item.originallink.getD ""
          naverLink := item.link.getD "" } := by
      simp [process_one, hparse, Int.not_lt.mpr hle, hpol, hmode]
    refine ⟨_, hp, rfl, ?_⟩
    intro hmem
    simp only [process_news_items]
    exact (List.mergeSort_perm _ _).mem_iff.mpr (List.mem_filterMap.mpr ⟨item, hmem, hp⟩)

/-- A concrete raw provider record used by the C6 witness. -/
def raw0 : RawNewsItem :=
  { title := some "정치 소식", description := some "정당 동향",
    originallink := some "https://example.com/n", link := some "https://n.example.com/n",
    pubDate := some "03 Sep 2024 10:30:00" }

/-- C6 (witness): with a date parser that fails on the concrete record, the
record is kept, carries its raw date string, and appears in the post-processed
list. -/
theorem C6_witness :
    ∃ p, process_one id (fun _ => none) (fun _ => "") ((0 : Int) - 7 * 86400) "all" "" raw0
        = some p ∧
      p.pubDate = raw0.pubDate.getD "" ∧
      (raw0 ∈ [raw0] → p ∈ process_news_items id (fun _ => none) (fun _ => "") 0 7 "all" "" [raw0]) :=
  (C6_date_filtering id (fun _ => none) (fun _ => "") 0 7 "all" "" [raw0] raw0).1
    rfl (by decide) (by decide)

/-- C9: the confirm request schema accepts every typed input — any topic
string (however short, long, blank or forbidden), any integers and any
searchMode — while the ColumnRequest schema rejects each of those same
inputs: topics shorter than 2 or longer than 200 characters, whitespace-only
topics, topics containing a forbidden keyword, out-of-range
maxRevisionAttempts or daysBack, and searchMode values other than "title" and
"all". -/
theorem C9_confirm_schema_unvalidated :
    ∀ (topic : String) (d m : Int) (sm : String) (p : Bool),
      (confirm_request_validate topic d m sm p).isOk = true ∧
      (topic.length < 2 → (column_request_validate topic m d sm).isOk = false) ∧
      (200 < topic.length → (column_request_validate topic m d sm).isOk = false) ∧
      (pyStrip topic = "" → (column_request_validate topic m d sm).isOk = false) ∧
      ((∃ kw ∈ forbidden_keywords, containsSub (pyLower topic) kw = true) →
        (column_request_validate topic m d sm).isOk = false) ∧
      (m < 1 ∨ 5 < m → (column_request_validate topic m d sm).isOk = false) ∧
      (d < 1 ∨ 30 < d → (column_request_validate topic m d sm).isOk = false) ∧
      (sm ≠ "title" → sm ≠ "all" → (column_request_validate topic m d sm).isOk = false) := by
  intro topic d m sm p
  refine ⟨rfl, ?_, ?_, ?_, ?_, ?_, ?_, ?_⟩
  · intro h
    simp only [column_request_validate]
    rw [if_pos h]
    rfl
  · intro h
    simp only [column_request_validate]
    rw [if_neg (by omega), if_pos h]
    rfl
  · intro h
    simp only [column_request_validate]
    split
    · rfl
    · split
      · rfl
      · split
        · rfl
        · split
          · rfl
          · simp only [validate_topic]
            rw [if_pos h]
            rfl
  · rintro ⟨kw, hkw, hc⟩
    have hne : find_forbidden (pyLower topic) ≠ none := by
      intro hnone
      have := List.find?_eq_none.mp hnone kw hkw
      simp [hc] at this
    have hvt : ∃ e, validate_topic topic = Except.error e := by
      cases hf : find_forbidden (pyLower topic) with
      | none => exact absurd hf hne
      | some kw2 =>
        simp only [validate_topic]
        split
        · exact ⟨_, rfl⟩
        · rw [hf]
          exact ⟨_, rfl⟩
    obtain ⟨e, he⟩ := hvt
    simp only [column_request_validate]
    split
    · rfl
    · split
      · rfl
      · split
        · rfl
        · split
          · rfl
          · rw [he]
            rfl
  · intro h
    simp only [column_request_validate]
    split
    · rfl
    · split
      · rfl
      · split
        · rfl
        · rename_i hcond
          exfalso
          simp only [Bool.or_eq_true, decide_eq_true_eq, not_or] at hcond
          omega
  · intro h
    simp only [column_request_validate]
    split
    · rfl
    · split
      · rfl
      · split
        · rfl
        · split
          · rfl
          · rename_i hcond
            exfalso
            simp only [Bool.or_eq_true, decide_eq_true_eq, not_or] at hcond
            omega
  · intro h1 h2
    simp only [column_request_validate]
    split
    · rfl
    · split
      · rfl
      · split
        · rfl
        · split
          · rfl
          · cases hvt : validate_topic topic with
            | error e => rfl
            | ok t =>
              simp only [validate_search_mode]
              rw [if_neg]
              · rfl
              · simp [h1, h2]

/-- C9 (witness): the one-character topic "a" with out-of-range integers and
an invalid searchMode passes confirm-request validation and fails
ColumnRequest validation. -/
theorem C9_witness :
    (confirm_request_validate "a" 99 (-3) "whatever" true).isOk = true ∧
    (column_request_validate "a" (-3) 99 "whatever").isOk = false := by
  have h := C9_confirm_schema_unvalidated "a" 99 (-3) "whatever" true
  exact ⟨h.1, h.2.1 (by decide)⟩
